import Mathlib

/-!
# Verification of the Boxo Event Calendar backend

Shallow embedding of the server-side core of the repository:
`src/backend/server.js` (Express routes, authentication middleware,
session sweep timer) and the `Database` class (`src/unnamed/part_000`,
i.e. `database.js`: SQLite-backed users / sessions / events tables).

Modelling conventions:
* Timestamps are `Nat` milliseconds since the Unix epoch (`Date.now()`).
* Each SQLite table is a `List` of rows; `AUTOINCREMENT` ids are modelled
  as `max id + 1`.
* `bcrypt.hash` / `bcrypt.compare` are opaque primitives, passed as
  function parameters (`hashPw`, `checkPw`).
* A crucial point of fidelity: `login` stores `expires_at` as the
  JavaScript ISO-8601 string `new Date(...).toISOString()`, i.e.
  `YYYY-MM-DDTHH:MM:SS.mmmZ`, while the SQL conditions
  `expires_at > CURRENT_TIMESTAMP` and `expires_at <= CURRENT_TIMESTAMP`
  compare it with the SQLite `CURRENT_TIMESTAMP` value, which renders as
  `YYYY-MM-DD HH:MM:SS` (space separator, UTC).  The `expires_at` column
  is declared `DATETIME`, which has NUMERIC affinity in SQLite, so the
  ISO string is stored as TEXT and both comparisons are byte-wise string
  comparisons.  The first 10 bytes of both formats are the zero-padded
  UTC date; at index 10 the stored value has the letter T (0x54) and
  `CURRENT_TIMESTAMP` has a space (0x20), so whenever the two dates agree
  the stored string is strictly greater.  Hence
  `expires_at > CURRENT_TIMESTAMP` holds iff `date(expires_at) >= date(now)`
  and `expires_at <= CURRENT_TIMESTAMP` holds iff
  `date(expires_at) < date(now)`.  We capture this with `dayOf`
  (UTC day index of an instant) in `sqlExpiresGtNow` / `sqlExpiresLeNow`.
-/

namespace Boxo

/-- Milliseconds since the Unix epoch, as produced by `Date.now()`. -/
abbrev Millis := Nat

/-- Milliseconds per UTC day. -/
def msPerDay : Nat := 86400000

/-- UTC day index of an instant: two instants render the same `YYYY-MM-DD`
date string iff they have the same `dayOf`. -/
def dayOf (t : Millis) : Nat := t / msPerDay

/-- The SQL condition `s.expires_at > CURRENT_TIMESTAMP` of
`Database.validateSession`: a byte-wise comparison of the stored ISO-8601
string against the SQLite `YYYY-MM-DD HH:MM:SS` rendering of now.  Because
the byte T (0x54) exceeds the space byte (0x20) at index 10, this
reduces to comparing the UTC dates, the
same-date case counting as "greater". -/
def sqlExpiresGtNow (expiresAt now : Millis) : Bool :=
  dayOf now ≤ dayOf expiresAt

/-- The SQL condition `expires_at <= CURRENT_TIMESTAMP` of
`Database.cleanupExpiredSessions`, under the same string-comparison
semantics: true iff the UTC date of the expiry is strictly before the
UTC date of now. -/
def sqlExpiresLeNow (expiresAt now : Millis) : Bool :=
  dayOf expiresAt < dayOf now

/-- A row of the `users` table. -/
structure User where
  id : Nat
  username : String
  email : String
  password_hash : String
  full_name : String
  role : String
  created_at : Millis
  last_login : Option Millis
  is_active : Bool
deriving Repr, DecidableEq

/-- A row of the `sessions` table.  `expires_at` is the instant whose
ISO-8601 rendering is stored in the TEXT column. -/
structure Session where
  id : Nat
  user_id : Nat
  token : String
  expires_at : Millis
  created_at : Millis
deriving Repr, DecidableEq

/-- A row of the `events` table. -/
structure Event where
  id : Nat
  title : String
  description : String
  date : String
  time : String
  type : String
  created_by : Option Nat
  created_at : Millis
  updated_at : Millis
deriving Repr, DecidableEq

/-- The whole SQLite database `boxo_calendar.db`. -/
structure DB where
  users : List User
  events : List Event
  sessions : List Session
deriving Repr, DecidableEq

/-- Result row of `Database.validateSession`:
`SELECT s.*, u.username, u.full_name, u.role`. -/
structure SessionView where
  id : Nat
  user_id : Nat
  token : String
  expires_at : Millis
  created_at : Millis
  username : String
  full_name : String
  role : String
deriving Repr, DecidableEq

/-- One candidate row of the join in `Database.validateSession`:
`FROM sessions s JOIN users u ON s.user_id = u.id
WHERE s.token = ? AND s.expires_at > CURRENT_TIMESTAMP AND u.is_active = 1`
(`users.id` is the primary key, so the join partner is unique). -/
def validRow (now : Millis) (db : DB) (token : String) (s : Session) :
    Option SessionView :=
  match db.users.find? (fun u => u.id == s.user_id) with
  | none => none
  | some u =>
      if s.token == token && sqlExpiresGtNow s.expires_at now && u.is_active then
        some { id := s.id, user_id := s.user_id, token := s.token,
               expires_at := s.expires_at, created_at := s.created_at,
               username := u.username, full_name := u.full_name, role := u.role }
      else none

/-- `Database.validateSession(token)`: `db.get` returns the first row
satisfying the join condition, or none. -/
def validateSession (now : Millis) (db : DB) (token : String) :
    Option SessionView :=
  db.sessions.findSome? (validRow now db token)

/-- `Database.deleteSession(token)`:
`DELETE FROM sessions WHERE token = ?`; resolves whether or not a row
matched (the row count is not inspected, so a missing row is not an
error). -/
def deleteSession (db : DB) (token : String) : DB :=
  { db with sessions := db.sessions.filter (fun s => !(s.token == token)) }

/-- `Database.cleanupExpiredSessions()`:
`DELETE FROM sessions WHERE expires_at <= CURRENT_TIMESTAMP`, resolving
`this.changes` (the number of deleted rows). -/
def cleanupExpiredSessions (now : Millis) (db : DB) : Nat × DB :=
  ((db.sessions.filter (fun s => sqlExpiresLeNow s.expires_at now)).length,
   { db with sessions := db.sessions.filter (fun s => !(sqlExpiresLeNow s.expires_at now)) })

/-- JavaScript truthiness of a possibly-absent JSON string field, as used
by `if (!username || !password)` etc.: absent and empty-string values are
falsy. -/
def truthy : Option String → Bool
  | none => false
  | some s => !(s == "")

/-- `Database.validateUser(username, password)`.  Looks up
`SELECT * FROM users WHERE username = ? AND is_active = 1` (username is
UNIQUE, so `find?` is faithful); on a bcrypt match it runs
`UPDATE users SET last_login = CURRENT_TIMESTAMP WHERE id = ?` and
resolves the row as fetched; otherwise resolves null and leaves the
database untouched.  `checkPw cand hash` models
`bcrypt.compare(cand, hash)`. -/
def validateUser (checkPw : String → String → Bool) (now : Millis) (db : DB)
    (username password : String) : Option User × DB :=
  match db.users.find? (fun u => u.username == username && u.is_active) with
  | none => (none, db)
  | some u =>
      if checkPw password u.password_hash then
        (some u,
         { db with users := db.users.map (fun v =>
             if v.id == u.id then { v with last_login := some now } else v) })
      else (none, db)

/-- `AUTOINCREMENT` id for a new `sessions` row. -/
def nextSessionId (db : DB) : Nat :=
  (db.sessions.map (fun s => s.id)).foldr max 0 + 1

/-- Redacted user object returned by `POST /api/auth/login`:
`{ id, username, fullName, email }`. -/
structure UserView where
  id : Nat
  username : String
  fullName : String
  email : String
deriving Repr, DecidableEq

/-- Observable outcome of `POST /api/auth/login`. -/
inductive LoginOutcome where
  /-- 400 `{ error: msg }` -/
  | validationError (msg : String)
  /-- 401 rejection with the fixed invalid-credentials message -/
  | invalidCredentials
  /-- 200 `{ success, token, user }` -/
  | success (token : String) (user : UserView)
deriving Repr, DecidableEq

/-- The `POST /api/auth/login` handler of `server.js`.  `freshToken`
models `generateToken()` (64 hex chars of CSPRNG output).  On success the
expiry instant is `Date.now() + 24 * 60 * 60 * 1000`; its ISO rendering
is stored in the new session row. -/
def login (checkPw : String → String → Bool) (now : Millis)
    (freshToken : String) (db : DB) (username? password? : Option String) :
    LoginOutcome × DB :=
  if !(truthy username?) || !(truthy password?) then
    (LoginOutcome.validationError "Username and password are required", db)
  else
    match validateUser checkPw now db (username?.getD "") (password?.getD "") with
    | (none, db₁) => (LoginOutcome.invalidCredentials, db₁)
    | (some u, db₁) =>
        let expiresAt := now + 24 * 60 * 60 * 1000
        let s : Session := { id := nextSessionId db₁, user_id := u.id,
                             token := freshToken, expires_at := expiresAt,
                             created_at := now }
        (LoginOutcome.success freshToken
          { id := u.id, username := u.username, fullName := u.full_name,
            email := u.email },
         { db₁ with sessions := db₁.sessions ++ [s] })

/-- Identity context attached to the request by the `authenticateAdmin`
middleware: `req.user = { id, username, fullName, role }`. -/
structure AdminCtx where
  id : Nat
  username : String
  fullName : String
  role : String
deriving Repr, DecidableEq

/-- Observable outcome of the `authenticateAdmin` middleware. -/
inductive AuthResult where
  /-- 401 `{ error: msg }` -/
  | unauthenticated (msg : String)
  /-- 500 `{ error: msg }` (the catch branch) -/
  | internalError (msg : String)
  /-- the middleware calls `next()` with `req.user = ctx` -/
  | authorized (ctx : AdminCtx)
deriving Repr, DecidableEq

/-- The shape check of the middleware, `startsWith` applied to the
authorization header with the `Bearer ` prefix: the
middleware: the first 7 characters must be `Bearer ` (modelled as a
7-character prefix comparison, which is what the JavaScript call
performs). -/
def isBearer (h : String) : Bool :=
  h.take 7 == "Bearer "

/-- The `authenticateAdmin` middleware of `server.js`.  `storageFailure`
models `db.validateSession` throwing (a storage-layer error caught by the
`try/catch`). -/
def authenticateAdmin (now : Millis) (db : DB) (storageFailure : Bool)
    (authHeader : Option String) : AuthResult :=
  match authHeader with
  | none => AuthResult.unauthenticated "Access denied. No token provided."
  | some h =>
      if !(isBearer h) then
        AuthResult.unauthenticated "Access denied. No token provided."
      else
        let token := h.drop 7
        if storageFailure then AuthResult.internalError "Authentication failed"
        else
          match validateSession now db token with
          | none => AuthResult.unauthenticated "Invalid or expired token."
          | some s =>
              AuthResult.authorized
                { id := s.user_id, username := s.username,
                  fullName := s.full_name, role := s.role }

/-- `AUTOINCREMENT` id for a new `users` row. -/
def nextUserId (db : DB) : Nat :=
  (db.users.map (fun u => u.id)).foldr max 0 + 1

/-- User object resolved by `Database.createUser` (and echoed by the
register endpoint): `{ id, username, email, fullName }` — it has no
secret field at all. -/
structure RegisteredUser where
  id : Nat
  username : String
  email : String
  fullName : String
deriving Repr, DecidableEq

/-- `Database.createUser({username, email, password, fullName})`.
Hashes the password (`hashPw` models `bcrypt.hash` at cost 10) and runs
`INSERT INTO users (username, email, password_hash, full_name)`; the
schema defaults supply the role `admin`, `is_active = 1`,
`created_at = CURRENT_TIMESTAMP`, `last_login = NULL`.  The UNIQUE
constraints on username and email reject duplicates at insert time. -/
def createUser (hashPw : String → String) (now : Millis) (db : DB)
    (username email password fullName : String) :
    Except String (RegisteredUser × DB) :=
  if db.users.any (fun u => u.username == username) then
    Except.error "UNIQUE constraint failed: users.username"
  else if db.users.any (fun u => u.email == email) then
    Except.error "UNIQUE constraint failed: users.email"
  else
    let row : User := { id := nextUserId db, username := username,
                        email := email, password_hash := hashPw password,
                        full_name := fullName, role := "admin",
                        created_at := now, last_login := none,
                        is_active := true }
    Except.ok ({ id := row.id, username := username, email := email,
                 fullName := fullName },
               { db with users := db.users ++ [row] })

/-- Observable outcome of `POST /api/auth/register`. -/
inductive RegisterOutcome where
  /-- 400 `{ error: msg }` from the field/length checks -/
  | validationError (msg : String)
  /-- 400 `{ error: msg }` from a UNIQUE-constraint failure -/
  | duplicate (msg : String)
  /-- 201 `{ success, message, user }` -/
  | created (user : RegisteredUser)
deriving Repr, DecidableEq

/-- The `POST /api/auth/register` handler of `server.js`: requires all
four fields truthy and `password.length >= 6`, then delegates to
`Database.createUser`. -/
def register (hashPw : String → String) (now : Millis) (db : DB)
    (fullName? email? username? password? : Option String) :
    RegisterOutcome × DB :=
  if !(truthy fullName?) || !(truthy email?) || !(truthy username?) ||
      !(truthy password?) then
    (RegisterOutcome.validationError "All fields are required", db)
  else if (password?.getD "").length < 6 then
    (RegisterOutcome.validationError
      "Password must be at least 6 characters long", db)
  else
    match createUser hashPw now db (username?.getD "") (email?.getD "")
        (password?.getD "") (fullName?.getD "") with
    | Except.error msg => (RegisterOutcome.duplicate msg, db)
    | Except.ok (u, db₁) => (RegisterOutcome.created u, db₁)

/-- Request body of the event endpoints:
`{ title, description, date, time, type }`. -/
structure EventData where
  title : String
  description : String
  date : String
  time : String
  type : String
deriving Repr, DecidableEq

/-- The `SET` clause of `Database.updateEvent`: overwrite
title/description/date/time/type and stamp `updated_at`. -/
def applyUpdate (now : Millis) (d : EventData) (e : Event) : Event :=
  { e with title := d.title, description := d.description, date := d.date,
           time := d.time, type := d.type, updated_at := now }

/-- Event object resolved by `Database.updateEvent`:
`{ id, title, description, date, time, type }`. -/
structure EventView where
  id : Nat
  title : String
  description : String
  date : String
  time : String
  type : String
deriving Repr, DecidableEq

/-- `Database.updateEvent(eventId, eventData)`:
`UPDATE events SET ... , updated_at = CURRENT_TIMESTAMP WHERE id = ?`;
`this.changes === 0` (no row matched) rejects with `Event not found`.
The pair carries the database after the call (unchanged on the error
path, since an UPDATE matching no row mutates nothing). -/
def updateEvent (now : Millis) (db : DB) (eventId : Nat) (d : EventData) :
    Except String EventView × DB :=
  if db.events.countP (fun e => e.id == eventId) = 0 then
    (Except.error "Event not found", db)
  else
    (Except.ok { id := eventId, title := d.title, description := d.description,
                 date := d.date, time := d.time, type := d.type },
     { db with events := db.events.map (fun e =>
         if e.id == eventId then applyUpdate now d e else e) })

/-- The closed enumeration of the `CHECK(type IN (...))` constraint on
`events.type`. -/
def validEventTypes : List String := ["assignment", "webinar", "workshop"]

/-- `AUTOINCREMENT` id for a new `events` row. -/
def nextEventId (db : DB) : Nat :=
  (db.events.map (fun e => e.id)).foldr max 0 + 1

/-- Event object resolved by `Database.createEvent`. -/
structure CreatedEvent where
  id : Nat
  title : String
  description : String
  date : String
  time : String
  type : String
  created_by : Nat
  created_at : Millis
deriving Repr, DecidableEq

/-- `Database.createEvent(eventData, createdBy)`:
`INSERT INTO events (title, description, date, time, type, created_by)`.
The CHECK constraint restricting type to assignment, webinar, workshop
rejects the insert at the storage layer for any other type, leaving the
table unchanged. -/
def createEvent (now : Millis) (db : DB) (d : EventData) (createdBy : Nat) :
    Except String (CreatedEvent × DB) :=
  if !(validEventTypes.contains d.type) then
    Except.error "CHECK constraint failed: type"
  else
    let row : Event := { id := nextEventId db, title := d.title,
                         description := d.description, date := d.date,
                         time := d.time, type := d.type,
                         created_by := some createdBy, created_at := now,
                         updated_at := now }
    Except.ok ({ id := row.id, title := d.title, description := d.description,
                 date := d.date, time := d.time, type := d.type,
                 created_by := createdBy, created_at := now },
               { db with events := db.events ++ [row] })

/-- The `POST /api/events` route: `authenticateAdmin` gate, then
`db.createEvent(req.body, req.user.id)`; any rejection from the store is
caught and surfaced as a 500 create-failure response.
Returns the HTTP status code and the resulting database. -/
def postEvent (now : Millis) (db : DB) (storageFailure : Bool)
    (authHeader : Option String) (d : EventData) : Nat × DB :=
  match authenticateAdmin now db storageFailure authHeader with
  | AuthResult.unauthenticated _ => (401, db)
  | AuthResult.internalError _ => (500, db)
  | AuthResult.authorized ctx =>
      match createEvent now db d ctx.id with
      | Except.error _ => (500, db)
      | Except.ok (_, db₁) => (201, db₁)

/-- The `u.username as created_by_username` column of the
`LEFT JOIN users u ON e.created_by = u.id` in `Database.getAllEvents`:
NULL when `created_by` is NULL or matches no user row (`users.id` is the
primary key, so the join partner is unique). -/
def joinUsername (db : DB) (createdBy : Option Nat) : Option String :=
  createdBy.bind (fun cid =>
    (db.users.find? (fun u => u.id == cid)).map (fun u => u.username))

/-- A result row of `Database.getAllEvents`: `e.*` plus
`created_by_username`. -/
structure EventRow where
  event : Event
  created_by_username : Option String
deriving Repr, DecidableEq

/-- Builds one result row of the listing join. -/
def eventRow (db : DB) (e : Event) : EventRow :=
  { event := e, created_by_username := joinUsername db e.created_by }

/-- The `ORDER BY e.date ASC, e.time ASC` ordering: lexicographic on the
zero-padded `YYYY-MM-DD` date string, ties broken by the `HH:MM` time
string. -/
def eventOrder (a b : Event) : Prop :=
  a.date < b.date ∨ (a.date = b.date ∧ a.time ≤ b.time)

instance : DecidableRel eventOrder := fun a b => by
  unfold eventOrder; infer_instance

instance : IsTotal Event eventOrder := by
  constructor
  intro a b
  rcases lt_trichotomy a.date b.date with h | h | h
  · exact Or.inl (Or.inl h)
  · rcases le_total a.time b.time with ht | ht
    · exact Or.inl (Or.inr ⟨h, ht⟩)
    · exact Or.inr (Or.inr ⟨h.symm, ht⟩)
  · exact Or.inr (Or.inl h)

instance : IsTrans Event eventOrder := by
  constructor
  intro a b c hab hbc
  rcases hab with h₁ | ⟨e₁, t₁⟩ <;> rcases hbc with h₂ | ⟨e₂, t₂⟩
  · exact Or.inl (lt_trans h₁ h₂)
  · exact Or.inl (by rw [← e₂]; exact h₁)
  · exact Or.inl (by rw [e₁]; exact h₂)
  · exact Or.inr ⟨e₁.trans e₂, le_trans t₁ t₂⟩

/-- `Database.getAllEvents()`:
`SELECT e.*, u.username as created_by_username FROM events e
LEFT JOIN users u ON e.created_by = u.id ORDER BY e.date ASC, e.time ASC`. -/
def getAllEvents (db : DB) : List EventRow :=
  (List.insertionSort eventOrder db.events).map (eventRow db)

/-! ## Concrete fixtures

Small concrete stores and primitives used by counterexamples and
witnesses.  `checkPw` fixtures model `bcrypt.compare` against one known
hash; `hashFix` models the bcrypt output shape (a salted digest that is
never its own input). -/

def checkPwFix : String → String → Bool := fun p h => p == "boxo2025" && h == "H"

def adminFix : User :=
  { id := 1, username := "admin", email := "admin@boxo.com",
    password_hash := "H", full_name := "System Administrator",
    role := "admin", created_at := 0, last_login := none, is_active := true }

def loginDB : DB := { users := [adminFix], events := [], sessions := [] }

/-- The store right after a successful login at instant 0; the new
session row carries `expires_at = 86400000` (instant 0 plus 24 hours). -/
def loginDBAfter : DB :=
  (login checkPwFix 0 "tok64" loginDB (some "admin") (some "boxo2025")).2

def sweepSession : Session :=
  { id := 1, user_id := 1, token := "t1", expires_at := 1000, created_at := 0 }

def sweepDB : DB := { users := [], events := [], sessions := [sweepSession] }

def cwC3 : String → String → Bool := fun p h => p == "right" && h == "H3"

def userC3active : User :=
  { id := 1, username := "alice", email := "a@x.com", password_hash := "H3",
    full_name := "Alice A", role := "admin", created_at := 0,
    last_login := none, is_active := true }

def userC3inactive : User :=
  { id := 2, username := "carol", email := "c@x.com", password_hash := "H3",
    full_name := "Carol C", role := "admin", created_at := 0,
    last_login := none, is_active := false }

def dbC3 : DB := { users := [userC3active, userC3inactive], events := [], sessions := [] }

def sessC4 : Session :=
  { id := 1, user_id := 1, token := "keep", expires_at := 10, created_at := 0 }

def dbC4 : DB := { users := [], events := [], sessions := [sessC4] }

def eventA : Event :=
  { id := 1, title := "Quiz", description := "Ch.1", date := "2025-09-01",
    time := "09:00", type := "assignment", created_by := some 1,
    created_at := 0, updated_at := 0 }

def eventB : Event :=
  { id := 2, title := "Webinar", description := "Intro", date := "2025-09-02",
    time := "10:00", type := "webinar", created_by := none,
    created_at := 0, updated_at := 0 }

def dbC5 : DB := { users := [], events := [eventA, eventB], sessions := [] }

def dataC5 : EventData :=
  { title := "Quiz 2", description := "Ch.2", date := "2025-09-03",
    time := "11:00", type := "assignment" }

def userC6 : User :=
  { id := 7, username := "root", email := "r@x.com", password_hash := "H6",
    full_name := "Root R", role := "admin", created_at := 0,
    last_login := none, is_active := true }

def sessC6 : Session :=
  { id := 1, user_id := 7, token := "tok6", expires_at := 86400000, created_at := 0 }

def dbC6 : DB := { users := [userC6], events := [], sessions := [sessC6] }

def viewC6 : SessionView :=
  { id := 1, user_id := 7, token := "tok6", expires_at := 86400000,
    created_at := 0, username := "root", full_name := "Root R", role := "admin" }

def cpwC7 : String → String → Bool := fun p h => p == "pw" && h == "H7"

def aliceC7 : User :=
  { id := 1, username := "alice", email := "al@x.com", password_hash := "H7",
    full_name := "Alice A", role := "admin", created_at := 0,
    last_login := none, is_active := true }

def dbC7 : DB := { users := [aliceC7], events := [], sessions := [] }

def bobC8 : User :=
  { id := 2, username := "bob", email := "b@x.com", password_hash := "H8",
    full_name := "Bob B", role := "admin", created_at := 0,
    last_login := none, is_active := true }

def ev1C8 : Event :=
  { id := 1, title := "Late", description := "", date := "2025-09-02",
    time := "09:00", type := "workshop", created_by := none,
    created_at := 0, updated_at := 0 }

def ev2C8 : Event :=
  { id := 2, title := "Mid", description := "", date := "2025-09-01",
    time := "10:00", type := "webinar", created_by := some 2,
    created_at := 0, updated_at := 0 }

/-- An event whose `created_by` points at a user id (9) that matches no
user row. -/
def ev3C8 : Event :=
  { id := 3, title := "Early", description := "", date := "2025-09-01",
    time := "08:00", type := "assignment", created_by := some 9,
    created_at := 0, updated_at := 0 }

def dbC8 : DB := { users := [bobC8], events := [ev1C8, ev2C8, ev3C8], sessions := [] }

/-- Model of the bcrypt output shape: a salted digest prefixed with the
algorithm tag, never equal to its input. -/
def hashFix : String → String := fun s => "$2b$10$" ++ s

def emptyDB : DB := { users := [], events := [], sessions := [] }

def userC10 : User :=
  { id := 3, username := "eve", email := "e@x.com", password_hash := "HX",
    full_name := "Eve E", role := "admin", created_at := 0,
    last_login := none, is_active := true }

def sessC10 : Session :=
  { id := 1, user_id := 3, token := "tk", expires_at := 86400000, created_at := 0 }

def dbC10 : DB := { users := [userC10], events := [], sessions := [sessC10] }

def ctxC10 : AdminCtx :=
  { id := 3, username := "eve", fullName := "Eve E", role := "admin" }

/-- A create-event body whose type is outside the CHECK enumeration. -/
def badTypeData : EventData :=
  { title := "Party", description := "fun", date := "2025-09-05",
    time := "20:00", type := "party" }

/-! ## Helper lemmas -/

/-- A session row whose token differs from the searched one never
qualifies in the `validateSession` join. -/
theorem validRow_token_ne (now : Millis) (db : DB) (token : String)
    (s : Session) (h : (s.token == token) = false) :
    validRow now db token s = none := by
  unfold validRow
  cases db.users.find? (fun u => u.id == s.user_id) with
  | none => rfl
  | some u => simp [h]

/-! ## Claims -/

/-- C4: `revoke(token)` followed by `validate(token)` yields none for
every store state and time; revoking is idempotent; and revoking a token
with no matching session row changes nothing (the code never inspects the
row count, so a missing row is not an error — `deleteSession` is total in
the model precisely because the source resolves unconditionally). -/
theorem revoke_then_validate (db : DB) (token : String) (now : Millis) :
    validateSession now (deleteSession db token) token = none ∧
    deleteSession (deleteSession db token) token = deleteSession db token ∧
    ((∀ s ∈ db.sessions, s.token ≠ token) → deleteSession db token = db) := by
  refine ⟨?_, ?_, ?_⟩
  · rw [validateSession, List.findSome?_eq_none_iff]
    intro s hs
    have hmem : s ∈ db.sessions.filter (fun s => !(s.token == token)) := hs
    have hpred := (List.mem_filter.mp hmem).2
    exact validRow_token_ne now (deleteSession db token) token s
      (by simpa using hpred)
  · simp [deleteSession, List.filter_filter]
  · intro h
    have hself : db.sessions.filter (fun s => !(s.token == token)) = db.sessions :=
      List.filter_eq_self.mpr (fun s hs => by simpa using h s hs)
    simp [deleteSession, hself]

/-- Witness for C4 at a concrete store: one session with token `keep`,
revoking the unknown token `gone`. -/
theorem revoke_then_validate_witness :
    validateSession 5 (deleteSession dbC4 "gone") "gone" = none ∧
    deleteSession (deleteSession dbC4 "gone") "gone" = deleteSession dbC4 "gone" ∧
    deleteSession dbC4 "gone" = dbC4 :=
  ⟨(revoke_then_validate dbC4 "gone" 5).1,
   (revoke_then_validate dbC4 "gone" 5).2.1,
   (revoke_then_validate dbC4 "gone" 5).2.2 (by decide)⟩

/-- C1 (code-bug evidence): after a successful login at instant 0, the
stored expiry instant is 86400000 (creation plus 24 hours).  The token
validates at creation and at expiry minus one second — but it ALSO still
validates at expiry plus one second (86401000), contradicting the claim
that validation stops strictly after the expiry timestamp.  Root cause:
`login` stores `new Date(...).toISOString()` (`YYYY-MM-DDTHH:MM:SS.mmmZ`)
while the SQL filter compares it as a string against SQLite
`CURRENT_TIMESTAMP` (`YYYY-MM-DD HH:MM:SS`); with equal date prefixes the
byte `T` (0x54) exceeds the byte 0x20, so the session stays valid for the
whole UTC date of its expiry (see `sqlExpiresGtNow`). -/
theorem login_token_valid_past_expiry :
    (login checkPwFix 0 "tok64" loginDB (some "admin") (some "boxo2025")).1
      = LoginOutcome.success "tok64"
          { id := 1, username := "admin", fullName := "System Administrator",
            email := "admin@boxo.com" } ∧
    (validateSession 0 loginDBAfter "tok64").isSome = true ∧
    (validateSession 86399000 loginDBAfter "tok64").isSome = true ∧
    (validateSession 86401000 loginDBAfter "tok64").isSome = true ∧
    validateSession 172800000 loginDBAfter "tok64" = none := by
  decide

/-- C2 (code-bug evidence): a session whose expiry instant 1000 has
already passed at now = 2000 (same UTC date) is NOT removed by the sweep,
which returns 0 and leaves the store unchanged — contradicting the claim
that `sweep()` deletes exactly the rows with `expires_at <= now`.  Same
string-format root cause as for the validation boundary (see
`sqlExpiresLeNow`); only once the UTC date has rolled over (now =
86400001) is the row deleted. -/
theorem sweep_keeps_sameday_expired :
    sweepSession.expires_at ≤ 2000 ∧
    cleanupExpiredSessions 2000 sweepDB = (0, sweepDB) ∧
    cleanupExpiredSessions 86400001 sweepDB
      = (1, { sweepDB with sessions := [] }) := by
  decide

/-- C3: whenever the username matches no user row, or matches only rows
that are inactive, or the bcrypt comparison fails for the row found, the
login endpoint produces exactly the same observable outcome — the 401
`InvalidCredentials` rejection — and the same (unchanged) store, so the
three failure modes are indistinguishable to the caller. -/
theorem login_rejects_uniformly (checkPw : String → String → Bool)
    (now : Millis) (tok : String) (db : DB) (username password : String)
    (hu : username ≠ "") (hp : password ≠ "")
    (hfail :
      (∀ u ∈ db.users, u.username ≠ username) ∨
      (∀ u ∈ db.users, u.username = username → u.is_active = false) ∨
      (∃ u, db.users.find? (fun v => v.username == username && v.is_active)
              = some u ∧
            checkPw password u.password_hash = false)) :
    login checkPw now tok db (some username) (some password)
      = (LoginOutcome.invalidCredentials, db) := by
  have key : validateUser checkPw now db username password = (none, db) := by
    rcases hfail with h | h | ⟨u, hf, hc⟩
    · have hnone : db.users.find? (fun v => v.username == username && v.is_active)
          = none := by
        rw [List.find?_eq_none]
        intro v hv
        simp only [Bool.and_eq_true, beq_iff_eq, not_and]
        intro h1 _
        exact h v hv h1
      simp [validateUser, hnone]
    · have hnone : db.users.find? (fun v => v.username == username && v.is_active)
          = none := by
        rw [List.find?_eq_none]
        intro v hv
        simp only [Bool.and_eq_true, beq_iff_eq, not_and]
        intro h1 h2
        rw [h v hv h1] at h2
        exact Bool.false_ne_true h2
      simp [validateUser, hnone]
    · simp [validateUser, hf, hc]
  simp [login, truthy, hu, hp, key]

/-- Witness for C3 at a concrete store holding an active user `alice`
and an inactive user `carol`: an unknown username, an inactive identity
and a wrong password all yield the literally identical rejection and
leave the store untouched. -/
theorem login_rejects_uniformly_witness :
    login cwC3 0 "t" dbC3 (some "ghost") (some "right")
      = (LoginOutcome.invalidCredentials, dbC3) ∧
    login cwC3 0 "t" dbC3 (some "carol") (some "right")
      = (LoginOutcome.invalidCredentials, dbC3) ∧
    login cwC3 0 "t" dbC3 (some "alice") (some "wrong")
      = (LoginOutcome.invalidCredentials, dbC3) :=
  ⟨login_rejects_uniformly cwC3 0 "t" dbC3 "ghost" "right" (by decide) (by decide)
     (Or.inl (by decide)),
   login_rejects_uniformly cwC3 0 "t" dbC3 "carol" "right" (by decide) (by decide)
     (Or.inr (Or.inl (by decide))),
   login_rejects_uniformly cwC3 0 "t" dbC3 "alice" "wrong" (by decide) (by decide)
     (Or.inr (Or.inr ⟨userC3active, by decide, by decide⟩))⟩

/-- C6: the authorization gate rejects with the 401 outcome exactly when
the header is absent, lacks the `Bearer ` prefix, or session validation
finds nothing for the extracted token; a storage failure during
validation yields the distinct 500 outcome instead; and on success it
attaches exactly the identity context (id, username, fullName, role)
taken from the validated session row and proceeds. -/
theorem authenticateAdmin_contract (now : Millis) (db : DB) (sf : Bool) :
    authenticateAdmin now db sf none
      = AuthResult.unauthenticated "Access denied. No token provided." ∧
    (∀ h : String, isBearer h = false →
      authenticateAdmin now db sf (some h)
        = AuthResult.unauthenticated "Access denied. No token provided.") ∧
    (∀ h : String, isBearer h = true →
      authenticateAdmin now db true (some h)
        = AuthResult.internalError "Authentication failed") ∧
    (∀ h : String, isBearer h = true →
      validateSession now db (h.drop 7) = none →
      authenticateAdmin now db false (some h)
        = AuthResult.unauthenticated "Invalid or expired token.") ∧
    (∀ (h : String) (s : SessionView), isBearer h = true →
      validateSession now db (h.drop 7) = some s →
      authenticateAdmin now db false (some h)
        = AuthResult.authorized
            { id := s.user_id, username := s.username,
              fullName := s.full_name, role := s.role }) := by
  refine ⟨rfl, ?_, ?_, ?_, ?_⟩
  · intro h hh
    simp [authenticateAdmin, hh]
  · intro h hh
    simp [authenticateAdmin, hh]
  · intro h hh hv
    simp [authenticateAdmin, hh, hv]
  · intro h s hh hv
    simp [authenticateAdmin, hh, hv]

/-- Witness for C6 at a concrete store with one live session (token
`tok6`, user `root`): the five branches of the contract at concrete
headers. -/
theorem authenticateAdmin_contract_witness :
    authenticateAdmin 0 dbC6 false none
      = AuthResult.unauthenticated "Access denied. No token provided." ∧
    authenticateAdmin 0 dbC6 false (some "Token tok6")
      = AuthResult.unauthenticated "Access denied. No token provided." ∧
    authenticateAdmin 0 dbC6 true (some "Bearer tok6")
      = AuthResult.internalError "Authentication failed" ∧
    authenticateAdmin 0 dbC6 false (some "Bearer nosuch")
      = AuthResult.unauthenticated "Invalid or expired token." ∧
    authenticateAdmin 0 dbC6 false (some "Bearer tok6")
      = AuthResult.authorized
          { id := 7, username := "root", fullName := "Root R", role := "admin" } :=
  ⟨(authenticateAdmin_contract 0 dbC6 false).1,
   (authenticateAdmin_contract 0 dbC6 false).2.1 "Token tok6" (by decide),
   (authenticateAdmin_contract 0 dbC6 false).2.2.1 "Bearer tok6" (by decide),
   (authenticateAdmin_contract 0 dbC6 false).2.2.2.1 "Bearer nosuch" (by decide)
     (by decide),
   (authenticateAdmin_contract 0 dbC6 false).2.2.2.2 "Bearer tok6" viewC6
     (by decide) (by decide)⟩

/-- C7 counterexample: the claim says credential verification does not
itself update identity timestamps and that the login flow does the
stamping.  On the concrete store `dbC7`, a single successful call to
`Database.validateUser` — the credential-verification operation — already
mutates the store, setting the last-login timestamp of the verified
identity; so the claim is false as stated. -/
theorem validateUser_updates_timestamp_cex :
    (validateUser cpwC7 100 dbC7 "alice" "pw").2 ≠ dbC7 ∧
    (validateUser cpwC7 100 dbC7 "alice" "pw").2.users.map (fun u => u.last_login)
      = [some 100] ∧
    dbC7.users.map (fun u => u.last_login) = [none] := by
  decide

/-- C7 amended: the credential-verification operation
(`Database.validateUser`) itself stamps the last-login timestamp of the
verified identity on success (touching no other table and nothing on
failure), and the login flow performs no further user-table update beyond
that call. -/
theorem validateUser_stamps_last_login (checkPw : String → String → Bool)
    (now : Millis) (tok : String) (db : DB) (username password : String) :
    (∀ db₂, validateUser checkPw now db username password = (none, db₂) →
      db₂ = db) ∧
    (∀ u db₂, validateUser checkPw now db username password = (some u, db₂) →
      db₂.events = db.events ∧ db₂.sessions = db.sessions ∧
      db₂.users = db.users.map (fun v =>
        if v.id == u.id then { v with last_login := some now } else v)) ∧
    (∀ u db₂, validateUser checkPw now db username password = (some u, db₂) →
      username ≠ "" → password ≠ "" →
      (login checkPw now tok db (some username) (some password)).2.users
        = db₂.users) := by
  refine ⟨?_, ?_, ?_⟩
  · intro db₂ h
    unfold validateUser at h
    cases hf : db.users.find? (fun u => u.username == username && u.is_active) with
    | none =>
        rw [hf] at h
        exact (congrArg Prod.snd h).symm
    | some u =>
        rw [hf] at h
        by_cases hc : checkPw password u.password_hash = true
        · simp [hc] at h
        · simp [hc] at h
          exact h.symm
  · intro u db₂ h
    unfold validateUser at h
    cases hf : db.users.find? (fun v => v.username == username && v.is_active) with
    | none =>
        rw [hf] at h
        simp at h
    | some u₀ =>
        rw [hf] at h
        by_cases hc : checkPw password u₀.password_hash = true
        · simp [hc] at h
          obtain ⟨hu, hdb⟩ := h
          subst hu
          refine ⟨by rw [← hdb], by rw [← hdb], ?_⟩
          rw [← hdb]
          simp
        · simp [hc] at h
  · intro u db₂ h hu hp
    simp [login, truthy, hu, hp, h]

/-- Witness for C7 amended at the concrete store `dbC7`: the store after
verification carries the stamped timestamp and the login flow adds no
further user-table change. -/
theorem validateUser_stamps_last_login_witness :
    ((validateUser cpwC7 100 dbC7 "alice" "pw").2.events = dbC7.events ∧
     (validateUser cpwC7 100 dbC7 "alice" "pw").2.sessions = dbC7.sessions ∧
     (validateUser cpwC7 100 dbC7 "alice" "pw").2.users = dbC7.users.map (fun v =>
        if v.id == aliceC7.id then { v with last_login := some 100 } else v)) ∧
    (login cpwC7 100 "t" dbC7 (some "alice") (some "pw")).2.users
      = (validateUser cpwC7 100 dbC7 "alice" "pw").2.users :=
  ⟨(validateUser_stamps_last_login cpwC7 100 "t" dbC7 "alice" "pw").2.1 aliceC7
     (validateUser cpwC7 100 dbC7 "alice" "pw").2 (by decide),
   (validateUser_stamps_last_login cpwC7 100 "t" dbC7 "alice" "pw").2.2 aliceC7
     (validateUser cpwC7 100 dbC7 "alice" "pw").2 (by decide) (by decide) (by decide)⟩

/-- Rows matching the updated id in the mapped event table are exactly
the original matching rows with the update applied. -/
theorem filter_map_update_pos (l : List Event) (eventId : Nat) (now : Millis)
    (d : EventData) :
    (l.map (fun e => if e.id == eventId then applyUpdate now d e else e)).filter
        (fun e => e.id == eventId)
      = (l.filter (fun e => e.id == eventId)).map (fun e => applyUpdate now d e) := by
  induction l with
  | nil => rfl
  | cons a l ih =>
      simp only [List.map_cons] at ih ⊢
      simp [applyUpdate] at ih
      by_cases hb : a.id = eventId
      · simp [hb, applyUpdate, ih]
      · simp [hb, applyUpdate, ih]

/-- Rows not matching the updated id are untouched by the mapped update. -/
theorem filter_map_update_neg (l : List Event) (eventId : Nat) (now : Millis)
    (d : EventData) :
    (l.map (fun e => if e.id == eventId then applyUpdate now d e else e)).filter
        (fun e => !(e.id == eventId))
      = l.filter (fun e => !(e.id == eventId)) := by
  induction l with
  | nil => rfl
  | cons a l ih =>
      simp only [List.map_cons] at ih ⊢
      simp [applyUpdate] at ih
      by_cases hb : a.id = eventId
      · simp [hb, applyUpdate, ih]
      · simp [hb, applyUpdate, ih]

/-- C5: when no event row carries the requested id, `updateEvent` rejects
with the not-found error and returns the store unchanged; when exactly
one row carries it (ids are the primary key), the call succeeds, the
users and sessions tables and the event-table length are unchanged, the
matching row becomes exactly the original row with
title/description/date/time/type overwritten and the update timestamp
stamped, and every non-matching row is exactly as before. -/
theorem updateEvent_spec (now : Millis) (db : DB) (eventId : Nat)
    (d : EventData) :
    ((∀ e ∈ db.events, e.id ≠ eventId) →
      updateEvent now db eventId d = (Except.error "Event not found", db)) ∧
    (∀ e₀, db.events.filter (fun e => e.id == eventId) = [e₀] →
      (updateEvent now db eventId d).1 = Except.ok
        { id := eventId, title := d.title, description := d.description,
          date := d.date, time := d.time, type := d.type } ∧
      (updateEvent now db eventId d).2.users = db.users ∧
      (updateEvent now db eventId d).2.sessions = db.sessions ∧
      (updateEvent now db eventId d).2.events.length = db.events.length ∧
      (updateEvent now db eventId d).2.events.filter (fun e => e.id == eventId)
        = [applyUpdate now d e₀] ∧
      (updateEvent now db eventId d).2.events.filter (fun e => !(e.id == eventId))
        = db.events.filter (fun e => !(e.id == eventId))) := by
  constructor
  · intro h
    have hz : db.events.countP (fun e => e.id == eventId) = 0 := by
      rw [List.countP_eq_zero]
      intro e he
      simpa using h e he
    simp [updateEvent, hz]
  · intro e₀ he
    have hnz : db.events.countP (fun e => e.id == eventId) = 1 := by
      rw [List.countP_eq_length_filter, he]
      rfl
    refine ⟨?_, ?_, ?_, ?_, ?_, ?_⟩
    · simp [updateEvent, hnz]
    · simp [updateEvent, hnz]
    · simp [updateEvent, hnz]
    · simp [updateEvent, hnz]
    · simp only [updateEvent, hnz]
      rw [if_neg (by simp)]
      rw [show ({ db with events := db.events.map (fun e =>
            if e.id == eventId then applyUpdate now d e else e) } : DB).events
          = db.events.map (fun e =>
            if e.id == eventId then applyUpdate now d e else e) from rfl]
      rw [filter_map_update_pos, he]
      rfl
    · simp only [updateEvent, hnz]
      rw [if_neg (by simp)]
      rw [show ({ db with events := db.events.map (fun e =>
            if e.id == eventId then applyUpdate now d e else e) } : DB).events
          = db.events.map (fun e =>
            if e.id == eventId then applyUpdate now d e else e) from rfl]
      rw [filter_map_update_neg]

/-- Witness for C5 at a concrete store with events 1 and 2: updating the
missing id 9 rejects and changes nothing; updating id 1 rewrites exactly
that row. -/
theorem updateEvent_spec_witness :
    updateEvent 50 dbC5 9 dataC5 = (Except.error "Event not found", dbC5) ∧
    (updateEvent 50 dbC5 1 dataC5).1 = Except.ok
      { id := 1, title := dataC5.title, description := dataC5.description,
        date := dataC5.date, time := dataC5.time, type := dataC5.type } ∧
    (updateEvent 50 dbC5 1 dataC5).2.events.filter (fun e => e.id == 1)
      = [applyUpdate 50 dataC5 eventA] ∧
    (updateEvent 50 dbC5 1 dataC5).2.events.filter (fun e => !(e.id == 1))
      = dbC5.events.filter (fun e => !(e.id == 1)) :=
  ⟨(updateEvent_spec 50 dbC5 9 dataC5).1 (by decide),
   ((updateEvent_spec 50 dbC5 1 dataC5).2 eventA (by decide)).1,
   ((updateEvent_spec 50 dbC5 1 dataC5).2 eventA (by decide)).2.2.2.2.1,
   ((updateEvent_spec 50 dbC5 1 dataC5).2 eventA (by decide)).2.2.2.2.2⟩

/-- C8: `getAllEvents` returns the event rows as a permutation of the
whole event table (nothing excluded, nothing duplicated), pairwise
ordered by date ascending then time ascending under lexicographic string
comparison; every event of the table appears as its left-join row, whose
creator-username field is null when the creator id is null or matches no
user row, and is the unique matching user-row username otherwise. -/
theorem getAllEvents_ordered_join (db : DB) :
    ((getAllEvents db).map (fun r => r.event)).Perm db.events ∧
    List.Pairwise (fun r₁ r₂ : EventRow => eventOrder r₁.event r₂.event)
      (getAllEvents db) ∧
    (∀ e ∈ db.events,
      eventRow db e ∈ getAllEvents db ∧
      (e.created_by = none → (eventRow db e).created_by_username = none) ∧
      (∀ cid, e.created_by = some cid →
        (db.users.find? (fun w => w.id == cid) = none →
          (eventRow db e).created_by_username = none) ∧
        (∀ w, db.users.find? (fun w₂ => w₂.id == cid) = some w →
          (eventRow db e).created_by_username = some w.username))) := by
  have hcomp : ((fun r : EventRow => r.event) ∘ eventRow db) = id :=
    funext fun e => rfl
  refine ⟨?_, ?_, ?_⟩
  · have hmap : (getAllEvents db).map (fun r => r.event)
        = List.insertionSort eventOrder db.events := by
      rw [getAllEvents, List.map_map, hcomp, List.map_id]
    rw [hmap]
    exact List.perm_insertionSort eventOrder db.events
  · rw [getAllEvents, List.pairwise_map]
    exact List.Pairwise.imp (fun h => h)
      (List.sorted_insertionSort eventOrder db.events)
  · intro e he
    refine ⟨?_, ?_, ?_⟩
    · rw [getAllEvents]
      exact List.mem_map_of_mem (eventRow db)
        ((List.perm_insertionSort eventOrder db.events).mem_iff.mpr he)
    · intro hnone
      simp [eventRow, joinUsername, hnone]
    · intro cid hcid
      constructor
      · intro hfind
        simp [eventRow, joinUsername, hcid, hfind]
      · intro w hfind
        simp [eventRow, joinUsername, hcid, hfind]

/-- Witness for C8 at a concrete store: three events inserted out of
order, one with a null creator, one whose creator id matches no user, one
created by `bob`; the listing is a permutation of the table, each row is
present, and the creator-username fields are as claimed. -/
theorem getAllEvents_ordered_join_witness :
    ((getAllEvents dbC8).map (fun r => r.event)).Perm dbC8.events ∧
    eventRow dbC8 ev1C8 ∈ getAllEvents dbC8 ∧
    (eventRow dbC8 ev1C8).created_by_username = none ∧
    eventRow dbC8 ev3C8 ∈ getAllEvents dbC8 ∧
    (eventRow dbC8 ev3C8).created_by_username = none ∧
    eventRow dbC8 ev2C8 ∈ getAllEvents dbC8 ∧
    (eventRow dbC8 ev2C8).created_by_username = some bobC8.username :=
  ⟨(getAllEvents_ordered_join dbC8).1,
   ((getAllEvents_ordered_join dbC8).2.2 ev1C8 (by decide)).1,
   ((getAllEvents_ordered_join dbC8).2.2 ev1C8 (by decide)).2.1 (by decide),
   ((getAllEvents_ordered_join dbC8).2.2 ev3C8 (by decide)).1,
   (((getAllEvents_ordered_join dbC8).2.2 ev3C8 (by decide)).2.2 9 (by decide)).1
     (by decide),
   ((getAllEvents_ordered_join dbC8).2.2 ev2C8 (by decide)).1,
   (((getAllEvents_ordered_join dbC8).2.2 ev2C8 (by decide)).2.2 2 (by decide)).2
     bobC8 (by decide)⟩

/-- C9: a valid registration (all fields present, password at least 6
characters) whose username and email collide with no existing identity
creates exactly one new user row, appended to the table with every old
row intact and the other tables untouched; the stored secret is the hash,
which differs from the plaintext whenever the hashing primitive is not
the identity on that input (true of bcrypt, whose output is a salted
digest in the `$2b$...` format); the row defaults to role `admin`,
`is_active` true, no last-login; and the returned view carries only id,
username, email and full name — the `RegisteredUser` type has no secret
field at all. -/
theorem register_creates_identity (hashPw : String → String) (now : Millis)
    (db : DB) (fullName email username password : String)
    (hf : fullName ≠ "") (he : email ≠ "") (hu : username ≠ "")
    (hlen : 6 ≤ password.length)
    (hnu : ∀ u ∈ db.users, u.username ≠ username)
    (hne : ∀ u ∈ db.users, u.email ≠ email)
    (hhash : hashPw password ≠ password) :
    ∃ row : User,
      register hashPw now db (some fullName) (some email) (some username)
          (some password)
        = (RegisterOutcome.created
            { id := nextUserId db, username := username, email := email,
              fullName := fullName },
           { db with users := db.users ++ [row] }) ∧
      row.username = username ∧ row.email = email ∧
      row.full_name = fullName ∧ row.role = "admin" ∧
      row.is_active = true ∧ row.password_hash = hashPw password ∧
      row.password_hash ≠ password ∧ row.last_login = none ∧
      row.created_at = now ∧
      (db.users ++ [row]).length = db.users.length + 1 := by
  have hp : password ≠ "" := by
    intro hcontra
    rw [hcontra] at hlen
    simp [String.length] at hlen
  have h1 : db.users.any (fun u => u.username == username) = false := by
    rw [Bool.eq_false_iff]
    intro hany
    obtain ⟨u, hmem, hequ⟩ := List.any_eq_true.mp hany
    exact hnu u hmem (by simpa using hequ)
  have h2 : db.users.any (fun u => u.email == email) = false := by
    rw [Bool.eq_false_iff]
    intro hany
    obtain ⟨u, hmem, hequ⟩ := List.any_eq_true.mp hany
    exact hne u hmem (by simpa using hequ)
  refine ⟨{ id := nextUserId db, username := username, email := email,
            password_hash := hashPw password, full_name := fullName,
            role := "admin", created_at := now, last_login := none,
            is_active := true }, ?_, rfl, rfl, rfl, rfl, rfl, rfl, hhash, rfl,
          rfl, by simp⟩
  have hlen2 : ¬ password.length < 6 := by omega
  simp [register, truthy, hf, he, hu, hp, hlen2, createUser, h1, h2]

/-- Witness for C9: registering alice into an empty store with the
bcrypt-shaped hashing fixture. -/
theorem register_creates_identity_witness :
    ∃ row : User,
      register hashFix 0 emptyDB (some "Alice A") (some "a@x.com")
          (some "alice") (some "secret1")
        = (RegisterOutcome.created
            { id := nextUserId emptyDB, username := "alice",
              email := "a@x.com", fullName := "Alice A" },
           { emptyDB with users := emptyDB.users ++ [row] }) ∧
      row.username = "alice" ∧ row.email = "a@x.com" ∧
      row.full_name = "Alice A" ∧ row.role = "admin" ∧
      row.is_active = true ∧ row.password_hash = hashFix "secret1" ∧
      row.password_hash ≠ "secret1" ∧ row.last_login = none ∧
      row.created_at = 0 ∧
      (emptyDB.users ++ [row]).length = emptyDB.users.length + 1 :=
  register_creates_identity hashFix 0 emptyDB "Alice A" "a@x.com" "alice"
    "secret1" (by decide) (by decide) (by decide) (by decide)
    (by intro u hu; simp [emptyDB] at hu) (by intro u hu; simp [emptyDB] at hu)
    (by decide)

/-- C10: when an authenticated create request carries an event type
outside the `CHECK` enumeration, the insert is rejected at the storage
layer with the constraint error and no row is inserted, and the endpoint
surfaces this as status 500 (the generic create-failure branch) with the
store unchanged — not as a 400 validation error, since the route performs
no type validation of its own. -/
theorem createEvent_invalid_type_500 (now : Millis) (db : DB) (sf : Bool)
    (authHeader : Option String) (d : EventData) (ctx : AdminCtx)
    (hauth : authenticateAdmin now db sf authHeader
      = AuthResult.authorized ctx)
    (htype : validEventTypes.contains d.type = false) :
    createEvent now db d ctx.id = Except.error "CHECK constraint failed: type" ∧
    postEvent now db sf authHeader d = (500, db) ∧
    (500 : Nat) ≠ 400 := by
  have hmem : d.type ∉ validEventTypes := by simpa using htype
  have h1 : createEvent now db d ctx.id
      = Except.error "CHECK constraint failed: type" := by
    simp [createEvent, hmem]
  refine ⟨h1, ?_, by decide⟩
  simp [postEvent, hauth, h1]

/-- Witness for C10: a live session for eve (token `tk`), a request with
type `party`. -/
theorem createEvent_invalid_type_500_witness :
    createEvent 0 dbC10 badTypeData ctxC10.id
      = Except.error "CHECK constraint failed: type" ∧
    postEvent 0 dbC10 false (some "Bearer tk") badTypeData = (500, dbC10) ∧
    (500 : Nat) ≠ 400 :=
  createEvent_invalid_type_500 0 dbC10 false (some "Bearer tk") badTypeData
    ctxC10 (by decide) (by decide)

end Boxo
